import Mathlib

/-!
Shallow embedding of `src/app.py` (a Flask app that extracts a YouTube
video id from a URL, fetches the video's transcript through the
`youtube_transcript_api` backend with a language/type fallback chain, and
renders the result), together with theorems checking the repository's
specification against this embedding.

The transcript backend is external to the repository; it is modelled as a
record of functions that either return a value or raise one of the
exceptions the code catches (`TranscriptsDisabled`, `NoTranscriptFound`,
or any other exception carrying a message, mirroring Python's
`except Exception as e`).
-/

set_option autoImplicit false

namespace YtTrans

/-! ## Video id extraction (`extract_video_id`) -/

/-- The character class `[0-9A-Za-z_-]` of the two regular expressions in
`extract_video_id`.  `Char.isDigit`, `Char.isUpper` and `Char.isLower`
are the ASCII ranges, exactly as the regex ranges are. -/
def isIdChar (c : Char) : Bool :=
  c.isDigit || c.isUpper || c.isLower || c = '_' || c = '-'

/-- `idChars n cs` models matching `[0-9A-Za-z_-]{n}` at the start of
`cs`: it returns the first `n` characters when they all lie in the class,
and `none` when `cs` is shorter or some character is outside the class. -/
def idChars : Nat → List Char → Option (List Char)
  | 0, _ => some []
  | _ + 1, [] => none
  | n + 1, c :: rest =>
    if isIdChar c then (idChars n rest).map (fun cs => c :: cs) else none

/-- Matching the first pattern `(?:v=|\/)([0-9A-Za-z_-]{11}).*` at one
start position.  The alternatives are tried in order (`v=` then `/`);
their first characters differ, so at most one can apply.  The trailing
`.*` always matches (possibly zero characters) and binds nothing, so it
is not represented. -/
def match1At : List Char → Option (List Char)
  | 'v' :: '=' :: rest => idChars 11 rest
  | '/' :: rest => idChars 11 rest
  | _ => none

/-- `re.search` with the first pattern: try every start position from the
left, returning the capture of the leftmost match. -/
def search1 : List Char → Option (List Char)
  | [] => none
  | c :: rest =>
    match match1At (c :: rest) with
    | some tok => some tok
    | none => search1 rest

/-- Matching a literal alternative of a regex at the start of `cs`:
returns the remainder of `cs` when `cs` starts with the characters of
`p`, `none` otherwise. -/
def stripMarker : List Char → List Char → Option (List Char)
  | [], cs => some cs
  | _ :: _, [] => none
  | a :: p, c :: cs => if a = c then stripMarker p cs else none

/-- Matching the second pattern
`(?:embed\/|v\/|youtu\.be\/)([0-9A-Za-z_-]{11})` at one start position:
the three literal alternatives are tried in order (their first characters
differ, so at most one applies), then the capture group. -/
def match2At (cs : List Char) : Option (List Char) :=
  match stripMarker ['e', 'm', 'b', 'e', 'd', '/'] cs with
  | some rest => idChars 11 rest
  | none =>
    match stripMarker ['v', '/'] cs with
    | some rest => idChars 11 rest
    | none =>
      match stripMarker ['y', 'o', 'u', 't', 'u', '.', 'b', 'e', '/'] cs with
      | some rest => idChars 11 rest
      | none => none

/-- `re.search` with the second pattern. -/
def search2 : List Char → Option (List Char)
  | [] => none
  | c :: rest =>
    match match2At (c :: rest) with
    | some tok => some tok
    | none => search2 rest

/-- `extract_video_id(url)`: `None` on the empty string, otherwise the
capture of the first pattern that matches anywhere in the string, the two
patterns being tried in order. -/
def extract_video_id (url : String) : Option String :=
  if url = "" then none
  else
    match search1 url.data with
    | some tok => some (String.mk tok)
    | none =>
      match search2 url.data with
      | some tok => some (String.mk tok)
      | none => none

/-! ## The transcript backend model -/

/-- The exceptions distinguished by `get_transcript_text`'s handlers:
`TranscriptsDisabled` and `NoTranscriptFound` from
`youtube_transcript_api`, and any other exception (Python's
`except Exception as e`), carrying `str(e)`. -/
inductive BackendExc where
  | TranscriptsDisabled
  | NoTranscriptFound
  | OtherException (msg : String)
  deriving DecidableEq

/-- One transcript segment.  Only the `text` field is consumed by the
code (`segment.text`); the timing fields are never read. -/
structure Segment where
  text : String
  deriving DecidableEq

/-- One transcript track.  `fetch` models `transcript.fetch()`: the
track's segments, or an exception. -/
structure Track where
  fetch : Except BackendExc (List Segment)

/-- One entry of `transcript_list.available_languages`; the code reads
only `lang['language_code']`. -/
structure LangEntry where
  language_code : String

/-- The transcript list returned by
`YouTubeTranscriptApi.list_transcripts`, with the three capabilities the
code uses.  The find functions take the list of language codes they are
given in the code and may raise. -/
structure TranscriptList where
  find_manually_created_transcript : List String → Except BackendExc Track
  find_generated_transcript : List String → Except BackendExc Track
  available_languages : List LangEntry

/-- The whole backend: `list_transcripts` for a video id either returns a
`TranscriptList` or raises. -/
structure Backend where
  list_transcripts : String → Except BackendExc TranscriptList

/-! ## `get_transcript_text` -/

/-- `" ".join([segment.text for segment in fetched_transcript_segments])`. -/
def joinSegments (segs : List Segment) : String :=
  String.intercalate " " (segs.map Segment.text)

/-- The `for lang_code in [lang['language_code'] for lang in available_langs]`
loop: try `find_generated_transcript([lang_code])` for each advertised
language in order; `NoTranscriptFound` means `continue`, success means
`break`, and any other exception propagates to the outer handlers.
Falling off the end (also when the list is empty) leaves `transcript`
as `None`. -/
def tryAvailableLangs (tl : TranscriptList) : List LangEntry → Except BackendExc (Option Track)
  | [] => Except.ok none
  | l :: rest =>
    match tl.find_generated_transcript [l.language_code] with
    | Except.ok t => Except.ok (some t)
    | Except.error BackendExc.NoTranscriptFound => tryAvailableLangs tl rest
    | Except.error e => Except.error e

/-- The track-selection part of `get_transcript_text`: manual English
first, then generated English, then the loop over
`available_languages`.  The inner `except NoTranscriptFound` handlers
catch only that exception; everything else propagates. -/
def selectTranscript (tl : TranscriptList) : Except BackendExc (Option Track) :=
  match tl.find_manually_created_transcript ["en"] with
  | Except.ok t => Except.ok (some t)
  | Except.error BackendExc.NoTranscriptFound =>
    match tl.find_generated_transcript ["en"] with
    | Except.ok t => Except.ok (some t)
    | Except.error BackendExc.NoTranscriptFound => tryAvailableLangs tl tl.available_languages
    | Except.error e => Except.error e
  | Except.error e => Except.error e

/-- The body of `get_transcript_text`'s outer `try`: an uncaught
exception is an `Except.error`; a normal `return text, err` pair is an
`Except.ok`.  `Except.ok none` from `selectTranscript` is the
`if not transcript: return None, "No transcripts found ..."` early
return. -/
def fetchBody (b : Backend) (video_id : String) :
    Except BackendExc (Option String × Option String) :=
  match b.list_transcripts video_id with
  | Except.error e => Except.error e
  | Except.ok transcript_list =>
    match selectTranscript transcript_list with
    | Except.error e => Except.error e
    | Except.ok none =>
      Except.ok (none, some "No transcripts found for this video in any language.")
    | Except.ok (some transcript) =>
      match transcript.fetch with
      | Except.error e => Except.error e
      | Except.ok segs => Except.ok (some (joinSegments segs), none)

/-- The outer `except` handlers of `get_transcript_text`, in source
order: `TranscriptsDisabled`, `NoTranscriptFound`, then
`except Exception as e`. -/
def excToResult : Except BackendExc (Option String × Option String) →
    Option String × Option String
  | Except.ok r => r
  | Except.error BackendExc.TranscriptsDisabled =>
    (none, some "Transcripts are disabled for this video.")
  | Except.error BackendExc.NoTranscriptFound =>
    (none, some "No transcript found for this video.")
  | Except.error (BackendExc.OtherException msg) =>
    (none, some ("An unexpected error occurred: " ++ msg))

/-- `get_transcript_text(video_id)` against backend `b`: the `(full_text,
error_message)` pair the Python function returns. -/
def get_transcript_text (b : Backend) (video_id : String) : Option String × Option String :=
  excToResult (fetchBody b video_id)

/-! ## `basic_summarizer` and the request handler `summarize_video` -/

/-- `basic_summarizer(text)`: identity on truthy strings, `""` otherwise. -/
def basic_summarizer (text : String) : String :=
  if text = "" then "" else text

/-- Python truthiness of a string: `""` is falsy. -/
def truthyStr (s : String) : Bool :=
  if s = "" then false else true

/-- Python truthiness of an optional string: `None` and `""` are falsy. -/
def truthyOptStr : Option String → Bool
  | none => false
  | some s => truthyStr s

/-- Drop leading whitespace characters. -/
def dropLeadingWs : List Char → List Char
  | [] => []
  | c :: rest => if c.isWhitespace then dropLeadingWs rest else c :: rest

/-- `str.strip()`: remove leading and trailing whitespace (modelled over
the ASCII whitespace characters). -/
def pyStrip (s : String) : String :=
  String.mk (dropLeadingWs ((dropLeadingWs s.data.reverse).reverse))

/-- What the handler passes to `render_template`. -/
structure DisplayModel where
  summary : Option String
  error_message : Option String
  video_url_input : String
  full_transcript : Option String
  deriving DecidableEq

/-- The decision chain of `summarize_video` after trimming, producing the
`(summary_text, error_msg, fetched_text_content)` triple of locals just
before the `render_template` call. -/
def summarize_core (b : Backend) (video_url : String) :
    Option String × Option String × Option String :=
  if video_url = "" then
    (none, some "Please enter a YouTube video URL.", none)
  else
    match extract_video_id video_url with
    | none =>
      (none, some "Invalid YouTube URL or could not extract Video ID. Please use a valid format (e.g., https://www.youtube.com/watch?v=VIDEO_ID or https://youtu.be/VIDEO_ID).", none)
    | some video_id =>
      let fr := get_transcript_text b video_id
      if truthyOptStr fr.2 then
        (none, fr.2, fr.1)
      else if truthyOptStr fr.1 then
        let summary_text := basic_summarizer (fr.1.getD "")
        if summary_text = "" then
          (some summary_text, some "Could not generate summary from the transcript.", fr.1)
        else
          (some summary_text, none, fr.1)
      else
        (none, some "Could not retrieve transcript for the video (no text content).", fr.1)

/-- `summarize_video` for form field value `raw_video_url` against
backend `b`: trim the input (`.strip()`), run the decision chain, and
build the render arguments, `full_transcript` being
`fetched_text_content if error_msg and fetched_text_content else None`. -/
def summarize_video (b : Backend) (raw_video_url : String) : DisplayModel :=
  let video_url := pyStrip raw_video_url
  let r := summarize_core b video_url
  { summary := r.1
    error_message := r.2.1
    video_url_input := video_url
    full_transcript := if truthyOptStr r.2.1 && truthyOptStr r.2.2 then r.2.2 else none }

/-! ## The spec's notion of a marked token, and concrete backends

`MarkedToken` follows the specification's words for the extraction
property: the string contains a valid 11-character token immediately
preceded by `v=`, `/`, `embed/`, `v/`, or `youtu.be/`.  The concrete
backends below instantiate the backend capability surface for the
witness theorems. -/

/-- The five prefixes named by the specification, as character lists. -/
def tokenMarkers : List (List Char) :=
  [['v', '='], ['/'],
   ['e', 'm', 'b', 'e', 'd', '/'],
   ['v', '/'],
   ['y', 'o', 'u', 't', 'u', '.', 'b', 'e', '/']]

/-- `MarkedToken u t`: the character list `u` contains the valid
11-character token `t` immediately preceded by one of the five
specification markers. -/
def MarkedToken (u t : List Char) : Prop :=
  t.length = 11 ∧ t.all isIdChar = true ∧
  ∃ p ∈ tokenMarkers, ∃ pre post, u = pre ++ (p ++ (t ++ post))

/-- A backend for which `list_transcripts` raises `TranscriptsDisabled`. -/
def bDisabled : Backend :=
  ⟨fun _ => Except.error BackendExc.TranscriptsDisabled⟩

/-- The manual English track of `bBothEnglish`. -/
def tManual : Track :=
  ⟨Except.ok [⟨"Never"⟩, ⟨"gonna"⟩, ⟨"give"⟩]⟩

/-- The generated English track of `bBothEnglish`. -/
def tGenerated : Track :=
  ⟨Except.ok [⟨"auto"⟩]⟩

/-- A transcript list exposing both a manual and a generated English
track. -/
def tlBothEnglish : TranscriptList :=
  ⟨fun _ => Except.ok tManual, fun _ => Except.ok tGenerated, [⟨"en"⟩]⟩

/-- A backend exposing both a manual and a generated English track. -/
def bBothEnglish : Backend :=
  ⟨fun _ => Except.ok tlBothEnglish⟩

/-- The generated Spanish track of `bSpanishOnly`. -/
def tSpanish : Track :=
  ⟨Except.ok [⟨"hola"⟩, ⟨"mundo"⟩]⟩

/-- A transcript list with no English track and one generated Spanish
track. -/
def tlSpanishOnly : TranscriptList :=
  ⟨fun _ => Except.error BackendExc.NoTranscriptFound,
   fun codes => if codes = ["es"] then Except.ok tSpanish
                else Except.error BackendExc.NoTranscriptFound,
   [⟨"es"⟩]⟩

/-- A backend with no English track and one generated Spanish track. -/
def bSpanishOnly : Backend :=
  ⟨fun _ => Except.ok tlSpanishOnly⟩

/-- A transcript list advertising a language but yielding no track at
all. -/
def tlNoTracks : TranscriptList :=
  ⟨fun _ => Except.error BackendExc.NoTranscriptFound,
   fun _ => Except.error BackendExc.NoTranscriptFound,
   [⟨"fr"⟩]⟩

/-- A backend yielding no track for any request. -/
def bNoTracks : Backend :=
  ⟨fun _ => Except.ok tlNoTracks⟩

/-- A manual English track whose fetch returns zero segments. -/
def tEmptySegs : Track :=
  ⟨Except.ok []⟩

/-- A transcript list whose manual English track fetches zero segments. -/
def tlEmptySegs : TranscriptList :=
  ⟨fun _ => Except.ok tEmptySegs,
   fun _ => Except.error BackendExc.NoTranscriptFound,
   []⟩

/-- A backend whose transcript text comes out empty (zero segments). -/
def bEmptySegs : Backend :=
  ⟨fun _ => Except.ok tlEmptySegs⟩

/-! ## Lemmas about the extraction model -/

theorem idChars_sound (n : Nat) :
    ∀ cs t : List Char, idChars n cs = some t → t.length = n ∧ t.all isIdChar = true := by
  induction n with
  | zero =>
    intro cs t h
    simp only [idChars, Option.some.injEq] at h
    subst h
    simp
  | succ n ih =>
    intro cs t h
    cases cs with
    | nil => simp [idChars] at h
    | cons c rest =>
      simp only [idChars] at h
      by_cases hc : isIdChar c
      · rw [if_pos hc, Option.map_eq_some'] at h
        obtain ⟨t', ht', rfl⟩ := h
        obtain ⟨h1, h2⟩ := ih rest t' ht'
        simp [h1, h2, hc]
      · rw [if_neg hc] at h
        exact absurd h (by simp)

theorem idChars_of_all (t : List Char) :
    ∀ post : List Char, t.all isIdChar = true → idChars t.length (t ++ post) = some t := by
  induction t with
  | nil => intro post _; simp [idChars]
  | cons c t' ih =>
    intro post hall
    simp only [List.all_cons, Bool.and_eq_true] at hall
    simp [idChars, hall.1, ih post hall.2]

theorem match1At_veq (rest : List Char) : match1At ('v' :: '=' :: rest) = idChars 11 rest := rfl

theorem match1At_slash (rest : List Char) : match1At ('/' :: rest) = idChars 11 rest := rfl

theorem match1At_nil : match1At [] = none := rfl

theorem match1At_sound (cs t : List Char) (h : match1At cs = some t) :
    t.length = 11 ∧ t.all isIdChar = true := by
  unfold match1At at h
  split at h
  · exact idChars_sound 11 _ t h
  · exact idChars_sound 11 _ t h
  · exact absurd h (by simp)

theorem match2At_sound (cs t : List Char) (h : match2At cs = some t) :
    t.length = 11 ∧ t.all isIdChar = true := by
  unfold match2At at h
  split at h
  · exact idChars_sound 11 _ t h
  · split at h
    · exact idChars_sound 11 _ t h
    · split at h
      · exact idChars_sound 11 _ t h
      · exact absurd h (by simp)

theorem search1_sound :
    ∀ cs t : List Char, search1 cs = some t → t.length = 11 ∧ t.all isIdChar = true := by
  intro cs
  induction cs with
  | nil => intro t h; simp [search1] at h
  | cons c rest ih =>
    intro t h
    rw [search1] at h
    cases hm : match1At (c :: rest) with
    | some tok =>
      rw [hm] at h
      simp only [Option.some.injEq] at h
      subst h
      exact match1At_sound _ tok hm
    | none =>
      rw [hm] at h
      exact ih t h

theorem search2_sound :
    ∀ cs t : List Char, search2 cs = some t → t.length = 11 ∧ t.all isIdChar = true := by
  intro cs
  induction cs with
  | nil => intro t h; simp [search2] at h
  | cons c rest ih =>
    intro t h
    rw [search2] at h
    cases hm : match2At (c :: rest) with
    | some tok =>
      rw [hm] at h
      simp only [Option.some.injEq] at h
      subst h
      exact match2At_sound _ tok hm
    | none =>
      rw [hm] at h
      exact ih t h

theorem search1_app (l₁ : List Char) :
    ∀ l₂ tok : List Char, match1At l₂ = some tok → ∃ v, search1 (l₁ ++ l₂) = some v := by
  induction l₁ with
  | nil =>
    intro l₂ tok h
    cases l₂ with
    | nil => exact absurd h (by simp [match1At])
    | cons c rest => exact ⟨tok, by simp [search1, h]⟩
  | cons c l₁x ih =>
    intro l₂ tok h
    rw [List.cons_append]
    cases hm : match1At (c :: (l₁x ++ l₂)) with
    | some v => exact ⟨v, by simp [search1, hm]⟩
    | none =>
      obtain ⟨v, hv⟩ := ih l₂ tok h
      exact ⟨v, by simp [search1, hm, hv]⟩

/-- C9: `extract_video_id` returns either `none` or a string of exactly
11 characters, each drawn from the alphabet `[0-9A-Za-z_-]`: both regex
capture groups are `([0-9A-Za-z_-]{11})`, so no capture is longer or
shorter than 11 characters, settling the spec's open question about
unclamped captures. -/
theorem extract_video_id_valid (u t : String) (h : extract_video_id u = some t) :
    t.length = 11 ∧ t.data.all isIdChar = true := by
  unfold extract_video_id at h
  split at h
  · exact absurd h (by simp)
  · cases h1 : search1 u.data with
    | some tok =>
      rw [h1] at h
      simp only [Option.some.injEq] at h
      subst h
      exact search1_sound u.data tok h1
    | none =>
      rw [h1] at h
      cases h2 : search2 u.data with
      | some tok =>
        rw [h2] at h
        simp only [Option.some.injEq] at h
        subst h
        exact search2_sound u.data tok h2
      | none =>
        rw [h2] at h
        exact absurd h (by simp)

/-- Witness for C9 at the concrete URL
`https://www.youtube.com/watch?v=dQw4w9WgXcQ`. -/
theorem extract_video_id_valid_w :
    extract_video_id "https://www.youtube.com/watch?v=dQw4w9WgXcQ" = some "dQw4w9WgXcQ" ∧
    (("dQw4w9WgXcQ" : String).length = 11 ∧
      ("dQw4w9WgXcQ" : String).data.all isIdChar = true) :=
  ⟨by decide,
   extract_video_id_valid "https://www.youtube.com/watch?v=dQw4w9WgXcQ" "dQw4w9WgXcQ" (by decide)⟩

/-- C8 counterexample: the string `/aaaaaaaaaaa/bbbbbbbbbbb` contains
the valid 11-character token `bbbbbbbbbbb` preceded by `/`, yet
`extract_video_id` does not return that token (the first pattern's
leftmost match captures the earlier token `aaaaaaaaaaa`). -/
theorem extract_marked_token_cex :
    MarkedToken ("/aaaaaaaaaaa/bbbbbbbbbbb" : String).data ("bbbbbbbbbbb" : String).data ∧
    extract_video_id "/aaaaaaaaaaa/bbbbbbbbbbb" ≠ some "bbbbbbbbbbb" := by
  constructor
  · exact ⟨by decide, by decide,
      ['/'], by decide, ("/aaaaaaaaaaa" : String).data, [], by decide⟩
  · decide

/-- C8 (amended): for every string containing a valid 11-character token
preceded by `v=`, `/`, `embed/`, `v/`, or `youtu.be/`,
`extract_video_id` succeeds and returns a valid 11-character token — the
capture at the leftmost match of the first (broad) pattern — but not
necessarily the given token, since an earlier `v=` or `/` followed by 11
id characters wins. -/
theorem extract_marked_token (u t : String) (h : MarkedToken u.data t.data) :
    ∃ v, extract_video_id u = some v ∧ v.length = 11 ∧ v.data.all isIdChar = true := by
  obtain ⟨hlen, hall, p, hp, pre, post, hu⟩ := h
  have hid : idChars 11 (t.data ++ post) = some t.data := by
    have hx := idChars_of_all t.data post hall
    rwa [hlen] at hx
  have hmatch : ∃ l₁ l₂ tok, u.data = l₁ ++ l₂ ∧ match1At l₂ = some tok := by
    simp only [tokenMarkers, List.mem_cons, List.not_mem_nil, or_false] at hp
    rcases hp with rfl | rfl | rfl | rfl | rfl
    · exact ⟨pre, 'v' :: '=' :: (t.data ++ post), t.data, hu, hid⟩
    · exact ⟨pre, '/' :: (t.data ++ post), t.data, hu, hid⟩
    · refine ⟨pre ++ ['e', 'm', 'b', 'e', 'd'], '/' :: (t.data ++ post), t.data, ?_, hid⟩
      rw [hu]
      simp
    · refine ⟨pre ++ ['v'], '/' :: (t.data ++ post), t.data, ?_, hid⟩
      rw [hu]
      simp
    · refine ⟨pre ++ ['y', 'o', 'u', 't', 'u', '.', 'b', 'e'], '/' :: (t.data ++ post),
        t.data, ?_, hid⟩
      rw [hu]
      simp
  obtain ⟨l₁, l₂, tok, hu2, hm⟩ := hmatch
  have hdata : u.data ≠ [] := by
    rw [hu2]
    cases l₁ with
    | nil =>
      cases l₂ with
      | nil => exact absurd hm (by simp [match1At])
      | cons c rest => simp
    | cons c rest => simp
  have hne : u ≠ "" := by
    intro he
    rw [he] at hdata
    exact hdata rfl
  obtain ⟨v, hv⟩ := search1_app l₁ l₂ tok hm
  rw [← hu2] at hv
  refine ⟨String.mk v, ?_, ?_⟩
  · unfold extract_video_id
    rw [if_neg hne, hv]
  · exact search1_sound u.data v hv

/-- Witness for C8's amended theorem at the concrete URL
`youtu.be/dQw4w9WgXcQ`. -/
theorem extract_marked_token_w :
    ∃ v, extract_video_id "youtu.be/dQw4w9WgXcQ" = some v ∧
      v.length = 11 ∧ v.data.all isIdChar = true :=
  extract_marked_token "youtu.be/dQw4w9WgXcQ" "dQw4w9WgXcQ"
    ⟨by decide, by decide,
     ['y', 'o', 'u', 't', 'u', '.', 'b', 'e', '/'], by decide, [], [], by decide⟩

/-! ## Lemmas about `get_transcript_text` -/

/-- Every run of `get_transcript_text` ends in one of the two result
shapes: text with no error, or no text with an error message. -/
theorem get_shape (b : Backend) (video_id : String) :
    (∃ s, get_transcript_text b video_id = (some s, none)) ∨
    (∃ m, get_transcript_text b video_id = (none, some m)) := by
  unfold get_transcript_text fetchBody
  cases hl : b.list_transcripts video_id with
  | error e => cases e <;> simp [excToResult]
  | ok tl =>
    cases hs : selectTranscript tl with
    | error e => cases e <;> simp [excToResult, hs]
    | ok o =>
      cases o with
      | none => simp [excToResult, hs]
      | some tr =>
        cases hf : tr.fetch with
        | error e => cases e <;> simp [excToResult, hs, hf]
        | ok segs => simp [excToResult, hs, hf]

theorem selectTranscript_manual (tl : TranscriptList) (t : Track)
    (hm : tl.find_manually_created_transcript ["en"] = Except.ok t) :
    selectTranscript tl = Except.ok (some t) := by
  simp only [selectTranscript, hm]

theorem selectTranscript_fallback (tl : TranscriptList)
    (hm : tl.find_manually_created_transcript ["en"] =
      Except.error BackendExc.NoTranscriptFound)
    (hg : tl.find_generated_transcript ["en"] =
      Except.error BackendExc.NoTranscriptFound) :
    selectTranscript tl = tryAvailableLangs tl tl.available_languages := by
  simp only [selectTranscript, hm, hg]

theorem get_of_selected (b : Backend) (video_id : String) (tl : TranscriptList)
    (t : Track) (segs : List Segment)
    (hl : b.list_transcripts video_id = Except.ok tl)
    (hs : selectTranscript tl = Except.ok (some t))
    (hf : t.fetch = Except.ok segs) :
    get_transcript_text b video_id = (some (joinSegments segs), none) := by
  simp only [get_transcript_text, fetchBody, hl, hs, hf, excToResult]

theorem get_of_no_selection (b : Backend) (video_id : String) (tl : TranscriptList)
    (hl : b.list_transcripts video_id = Except.ok tl)
    (hs : selectTranscript tl = Except.ok none) :
    get_transcript_text b video_id =
      (none, some "No transcripts found for this video in any language.") := by
  simp only [get_transcript_text, fetchBody, hl, hs, excToResult]

theorem tryAvailableLangs_all_fail (tl : TranscriptList) :
    ∀ ls : List LangEntry,
    (∀ l ∈ ls, tl.find_generated_transcript [l.language_code] =
      Except.error BackendExc.NoTranscriptFound) →
    tryAvailableLangs tl ls = Except.ok none := by
  intro ls
  induction ls with
  | nil => intro _; rfl
  | cons x xs ih =>
    intro h
    have hx := h x (by simp)
    simp only [tryAvailableLangs, hx]
    exact ih (fun y hy => h y (by simp [hy]))

theorem tryAvailableLangs_first_success (tl : TranscriptList) (l : LangEntry)
    (t : Track) (ls₂ : List LangEntry) :
    ∀ ls₁ : List LangEntry,
    (∀ x ∈ ls₁, tl.find_generated_transcript [x.language_code] =
      Except.error BackendExc.NoTranscriptFound) →
    tl.find_generated_transcript [l.language_code] = Except.ok t →
    tryAvailableLangs tl (ls₁ ++ l :: ls₂) = Except.ok (some t) := by
  intro ls₁
  induction ls₁ with
  | nil =>
    intro _ hsel
    simp only [List.nil_append, tryAvailableLangs, hsel]
  | cons x xs ih =>
    intro hfail hsel
    have hx := hfail x (by simp)
    simp only [List.cons_append, tryAvailableLangs, hx]
    exact ih (fun y hy => hfail y (by simp [hy])) hsel

/-- C1: for every video identifier and every backend behaviour —
disabled transcripts, missing tracks, and arbitrary other exceptions are
all values of the backend model — `get_transcript_text` returns a
`(text, error)` pair with exactly one side present: an error implies no
text, and no error implies text.  Totality of the Lean function (the
result type is a plain pair, not an exception monad) is the image of "no
uncaught fault ever propagates". -/
theorem get_transcript_text_exclusive (b : Backend) (video_id : String) :
    ((get_transcript_text b video_id).2.isSome = true →
      (get_transcript_text b video_id).1 = none) ∧
    ((get_transcript_text b video_id).2 = none →
      (get_transcript_text b video_id).1.isSome = true) := by
  rcases get_shape b video_id with ⟨s, h⟩ | ⟨m, h⟩ <;> rw [h] <;> simp

/-- Witness for C1 at a concrete backend that raises
`TranscriptsDisabled`. -/
theorem get_transcript_text_exclusive_w :
    ((get_transcript_text bDisabled "dQw4w9WgXcQ").2.isSome = true →
      (get_transcript_text bDisabled "dQw4w9WgXcQ").1 = none) ∧
    ((get_transcript_text bDisabled "dQw4w9WgXcQ").2 = none →
      (get_transcript_text bDisabled "dQw4w9WgXcQ").1.isSome = true) :=
  get_transcript_text_exclusive bDisabled "dQw4w9WgXcQ"

/-- C2: when the backend exposes both a manually created English track
and a generated English track, `get_transcript_text` uses the manual
one: its fetched segments are the ones joined into the result, and the
generated track is never consulted. -/
theorem manual_english_preferred (b : Backend) (video_id : String)
    (tl : TranscriptList) (tm tg : Track) (segs : List Segment)
    (hl : b.list_transcripts video_id = Except.ok tl)
    (hm : tl.find_manually_created_transcript ["en"] = Except.ok tm)
    (_hg : tl.find_generated_transcript ["en"] = Except.ok tg)
    (hf : tm.fetch = Except.ok segs) :
    get_transcript_text b video_id = (some (joinSegments segs), none) :=
  get_of_selected b video_id tl tm segs hl (selectTranscript_manual tl tm hm) hf

/-- Witness for C2 at a concrete backend with both English tracks: the
manual track's segments `Never gonna give` are returned. -/
theorem manual_english_preferred_w :
    get_transcript_text bBothEnglish "dQw4w9WgXcQ" =
      (some (joinSegments [⟨"Never"⟩, ⟨"gonna"⟩, ⟨"give"⟩]), none) :=
  manual_english_preferred bBothEnglish "dQw4w9WgXcQ" tlBothEnglish tManual tGenerated
    [⟨"Never"⟩, ⟨"gonna"⟩, ⟨"give"⟩] rfl rfl rfl rfl

/-- C3: with no manual and no generated English track, the advertised
languages are tried in backend order; the first language whose generated
track is found is used, and its fetched segments are joined into the
result with no error. -/
theorem generated_any_language_fallback (b : Backend) (video_id : String)
    (tl : TranscriptList) (ls₁ : List LangEntry) (l : LangEntry) (ls₂ : List LangEntry)
    (t : Track) (segs : List Segment)
    (hl : b.list_transcripts video_id = Except.ok tl)
    (hm : tl.find_manually_created_transcript ["en"] =
      Except.error BackendExc.NoTranscriptFound)
    (hg : tl.find_generated_transcript ["en"] =
      Except.error BackendExc.NoTranscriptFound)
    (hlangs : tl.available_languages = ls₁ ++ l :: ls₂)
    (hfail : ∀ x ∈ ls₁, tl.find_generated_transcript [x.language_code] =
      Except.error BackendExc.NoTranscriptFound)
    (hsel : tl.find_generated_transcript [l.language_code] = Except.ok t)
    (hf : t.fetch = Except.ok segs) :
    get_transcript_text b video_id = (some (joinSegments segs), none) := by
  have hs : selectTranscript tl = Except.ok (some t) := by
    rw [selectTranscript_fallback tl hm hg, hlangs]
    exact tryAvailableLangs_first_success tl l t ls₂ ls₁ hfail hsel
  exact get_of_selected b video_id tl t segs hl hs hf

/-- Witness for C3 at a concrete backend with only a generated Spanish
track. -/
theorem generated_any_language_fallback_w :
    get_transcript_text bSpanishOnly "dQw4w9WgXcQ" =
      (some (joinSegments [⟨"hola"⟩, ⟨"mundo"⟩]), none) :=
  generated_any_language_fallback bSpanishOnly "dQw4w9WgXcQ" tlSpanishOnly
    [] ⟨"es"⟩ [] tSpanish [⟨"hola"⟩, ⟨"mundo"⟩]
    rfl rfl rfl rfl (by simp) rfl rfl

/-- C4: when `list_transcripts` raises `TranscriptsDisabled`,
`get_transcript_text` returns no text and the error message
`Transcripts are disabled for this video.`. -/
theorem transcripts_disabled_result (b : Backend) (video_id : String)
    (h : b.list_transcripts video_id = Except.error BackendExc.TranscriptsDisabled) :
    get_transcript_text b video_id =
      (none, some "Transcripts are disabled for this video.") := by
  simp only [get_transcript_text, fetchBody, h, excToResult]

/-- Witness for C4 at the concrete disabled backend. -/
theorem transcripts_disabled_result_w :
    get_transcript_text bDisabled "dQw4w9WgXcQ" =
      (none, some "Transcripts are disabled for this video.") :=
  transcripts_disabled_result bDisabled "dQw4w9WgXcQ" rfl

/-- C5: when the whole fallback chain selects no track — no manual
English, no generated English, and every advertised language (possibly
none at all) fails with `NoTranscriptFound` — `get_transcript_text`
returns no text and the `NoTranscriptAvailable` message
`No transcripts found for this video in any language.`. -/
theorem no_transcript_available_result (b : Backend) (video_id : String)
    (tl : TranscriptList)
    (hl : b.list_transcripts video_id = Except.ok tl)
    (hm : tl.find_manually_created_transcript ["en"] =
      Except.error BackendExc.NoTranscriptFound)
    (hg : tl.find_generated_transcript ["en"] =
      Except.error BackendExc.NoTranscriptFound)
    (hall : ∀ x ∈ tl.available_languages,
      tl.find_generated_transcript [x.language_code] =
        Except.error BackendExc.NoTranscriptFound) :
    get_transcript_text b video_id =
      (none, some "No transcripts found for this video in any language.") := by
  have hs : selectTranscript tl = Except.ok none := by
    rw [selectTranscript_fallback tl hm hg]
    exact tryAvailableLangs_all_fail tl tl.available_languages hall
  exact get_of_no_selection b video_id tl hl hs

/-- Witness for C5 at a concrete backend advertising one language but
yielding no track. -/
theorem no_transcript_available_result_w :
    get_transcript_text bNoTracks "dQw4w9WgXcQ" =
      (none, some "No transcripts found for this video in any language.") :=
  no_transcript_available_result bNoTracks "dQw4w9WgXcQ" tlNoTracks
    rfl rfl rfl (by intro x hx; rfl)

/-! ## Lemmas about the request handler -/

/-- The `(summary_text, error_msg)` pair of the decision chain has
exactly one side present, for every input and backend. -/
theorem summarize_core_exclusive (b : Backend) (video_url : String) :
    ((summarize_core b video_url).2.1 = none →
      ((summarize_core b video_url).1).isSome = true) ∧
    (((summarize_core b video_url).2.1).isSome = true →
      (summarize_core b video_url).1 = none) := by
  by_cases hu : video_url = ""
  · simp [summarize_core, hu]
  · cases hx : extract_video_id video_url with
    | none => simp [summarize_core, hu, hx]
    | some video_id =>
      rcases get_shape b video_id with ⟨s, hfr⟩ | ⟨m, hfr⟩
      · by_cases hs : s = ""
        · subst hs
          simp [summarize_core, hu, hx, hfr, truthyOptStr, truthyStr]
        · simp [summarize_core, hu, hx, hfr, truthyOptStr, truthyStr, basic_summarizer, hs]
      · by_cases hm : m = ""
        · subst hm
          simp [summarize_core, hu, hx, hfr, truthyOptStr, truthyStr]
        · simp [summarize_core, hu, hx, hfr, truthyOptStr, truthyStr, hm]

/-- The final `error_msg` and the final `fetched_text_content` are never
both truthy, so the guard of the `full_transcript` render argument never
holds. -/
theorem summarize_core_not_both (b : Backend) (video_url : String) :
    truthyOptStr (summarize_core b video_url).2.1 = false ∨
    truthyOptStr (summarize_core b video_url).2.2 = false := by
  by_cases hu : video_url = ""
  · right
    simp [summarize_core, hu, truthyOptStr]
  · cases hx : extract_video_id video_url with
    | none =>
      right
      simp [summarize_core, hu, hx, truthyOptStr]
    | some video_id =>
      rcases get_shape b video_id with ⟨s, hfr⟩ | ⟨m, hfr⟩
      · by_cases hs : s = ""
        · subst hs
          right
          simp [summarize_core, hu, hx, hfr, truthyOptStr, truthyStr]
        · left
          simp [summarize_core, hu, hx, hfr, truthyOptStr, truthyStr, basic_summarizer, hs]
      · right
        by_cases hm : m = ""
        · subst hm
          simp [summarize_core, hu, hx, hfr, truthyOptStr, truthyStr]
        · simp [summarize_core, hu, hx, hfr, truthyOptStr, truthyStr, hm]

/-- C6: for every raw input URL and every backend behaviour, the
rendered `DisplayModel` has exactly one of `(summary, error_message)`
present: no error implies a summary is present, and an error implies the
summary is absent. -/
theorem summarize_video_exclusive (b : Backend) (raw_video_url : String) :
    ((summarize_video b raw_video_url).error_message = none →
      ((summarize_video b raw_video_url).summary).isSome = true) ∧
    (((summarize_video b raw_video_url).error_message).isSome = true →
      (summarize_video b raw_video_url).summary = none) :=
  summarize_core_exclusive b (pyStrip raw_video_url)

/-- Witness for C6 at a concrete backend and URL. -/
theorem summarize_video_exclusive_w :
    ((summarize_video bBothEnglish "v=dQw4w9WgXcQ").error_message = none →
      ((summarize_video bBothEnglish "v=dQw4w9WgXcQ").summary).isSome = true) ∧
    (((summarize_video bBothEnglish "v=dQw4w9WgXcQ").error_message).isSome = true →
      (summarize_video bBothEnglish "v=dQw4w9WgXcQ").summary = none) :=
  summarize_video_exclusive bBothEnglish "v=dQw4w9WgXcQ"

/-- C7 counterexample: with a backend whose manual English track fetches
zero segments, the fetch returns `(some "", none)` — empty text, no
error — yet the handler's error message is not
`Could not generate summary from the transcript.`: the empty string is
falsy, so the `elif not error_msg` branch fires instead. -/
theorem empty_transcript_message_cex :
    extract_video_id (pyStrip "v=dQw4w9WgXcQ") = some "dQw4w9WgXcQ" ∧
    get_transcript_text bEmptySegs "dQw4w9WgXcQ" = (some "", none) ∧
    (summarize_video bEmptySegs "v=dQw4w9WgXcQ").error_message ≠
      some "Could not generate summary from the transcript." :=
  ⟨by decide, by decide, by decide⟩

/-- C7 (amended): when a video identifier is extracted and the fetch
returns empty text with no error, the handler produces the error message
`Could not retrieve transcript for the video (no text content).` and an
absent summary. -/
theorem empty_transcript_message (b : Backend) (raw_video_url video_id : String)
    (hid : extract_video_id (pyStrip raw_video_url) = some video_id)
    (hfr : get_transcript_text b video_id = (some "", none)) :
    (summarize_video b raw_video_url).summary = none ∧
    (summarize_video b raw_video_url).error_message =
      some "Could not retrieve transcript for the video (no text content)." := by
  have hne : (pyStrip raw_video_url) ≠ "" := by
    intro he
    rw [he] at hid
    have hnone : extract_video_id "" = none := rfl
    rw [hnone] at hid
    simp at hid
  have hcore : summarize_core b (pyStrip raw_video_url) =
      (none, some "Could not retrieve transcript for the video (no text content).",
        some "") := by
    simp [summarize_core, hne, hid, hfr, truthyOptStr, truthyStr]
  constructor
  · show (summarize_core b (pyStrip raw_video_url)).1 = none
    rw [hcore]
  · show (summarize_core b (pyStrip raw_video_url)).2.1 =
      some "Could not retrieve transcript for the video (no text content)."
    rw [hcore]

/-- Witness for C7's amended theorem at the zero-segment backend. -/
theorem empty_transcript_message_w :
    (summarize_video bEmptySegs "v=dQw4w9WgXcQ").summary = none ∧
    (summarize_video bEmptySegs "v=dQw4w9WgXcQ").error_message =
      some "Could not retrieve transcript for the video (no text content)." :=
  empty_transcript_message bEmptySegs "v=dQw4w9WgXcQ" "dQw4w9WgXcQ" (by decide) (by decide)

/-- C10: the `full_transcript` render argument is `None` for every input
URL and backend behaviour: every error path of `get_transcript_text`
returns absent text, so `error_msg and fetched_text_content` never
holds. -/
theorem full_transcript_always_none (b : Backend) (raw_video_url : String) :
    (summarize_video b raw_video_url).full_transcript = none := by
  show (if truthyOptStr (summarize_core b (pyStrip raw_video_url)).2.1 &&
      truthyOptStr (summarize_core b (pyStrip raw_video_url)).2.2 then
      (summarize_core b (pyStrip raw_video_url)).2.2 else none) = none
  rcases summarize_core_not_both b (pyStrip raw_video_url) with h | h <;> simp [h]

end YtTrans
